import Mathlib

/-
Verification of the Sea Wolf ocean-cleanup game (src/streamlit.py) against
its specification. The generation functions, the scoring engine and the
timer-expiry block of main are embedded as pure Lean functions; the random
draws consumed by the Python code (random.choice, random.random,
random.randint) appear as explicit arguments, so every theorem quantifies
over all possible draw streams.
-/

namespace SeaWolf

-- ── CONFIG (lines 25-39 of src/streamlit.py) ─────────────────────────────────

def ATTRIBUTE_NAMES : List String :=
  ["Permeability", "Rigidity", "Size", "Energy", "Adhesion", "Speed", "Density", "Mobility"]

def TRAIT_NAMES : List String :=
  ["Heat-resistant", "Aerobic", "Hydrophilic", "Bioluminescent",
   "Acidophilic", "UV-tolerant", "Phosphorus-removing", "Photosensitive",
   "Cryogenic", "Alkaliphilic"]

def MICROBE_PREFIXES : List String :=
  ["Cyro", "Ops", "Neo", "Flux", "Zeta", "Axo", "Viro", "Plex", "Kino", "Rho",
   "Sigma", "Tau", "Delta", "Omni", "Hexa"]

def MICROBE_SUFFIXES : List String :=
  ["Virus", "Amoeba", "Bacillus", "Spore", "Phage", "Coccus", "Flagella",
   "Microbe", "Cell", "Organism"]

def MICROBES_PER_SITE : ℕ := 10
def MICROBES_TO_SELECT : ℕ := 3
def NUM_SITES : ℕ := 3
def PENALTY_PER_MISS : ℤ := 20

-- ── DATA STRUCTURES (lines 43-57) ────────────────────────────────────────────

/-- Line 43-48: a Microbe. The Python attribute dict is embedded as an
association list (keys unique in practice); the icon is cosmetic. -/
structure Microbe where
  name : String
  icon : String
  attributes : List (String × ℤ)
  traits : List String
deriving DecidableEq, Repr

instance : Inhabited Microbe := ⟨⟨"", "", [], []⟩⟩

/-- Dict access m.attributes[attr] (default 0 stands for the KeyError
branch, which is unreachable when the keys cover the site attributes). -/
def Microbe.attr (m : Microbe) (a : String) : ℤ :=
  (m.attributes.lookup a).getD 0

/-- Lines 50-57: a Site; attribute_ranges is the dict attr ↦ (low, high). -/
structure Site where
  site_number : ℕ
  attribute_names : List String
  attribute_ranges : List (String × (ℤ × ℤ))
  desired_trait : String
  undesired_trait : String
  microbe_pool : List Microbe
deriving Repr

instance : Inhabited Site := ⟨⟨0, [], [], "", "", []⟩⟩

/-- Dict access site.attribute_ranges[attr]. -/
def Site.range_of (s : Site) (a : String) : ℤ × ℤ :=
  (s.attribute_ranges.lookup a).getD (0, 0)

-- ── SCORING (lines 153-191) ──────────────────────────────────────────────────

/-- Line 164: avg = sum(values) / 3, computed for the members of the trio.
The Python float division is faithfully modelled by exact rational division
(mkRat sum 3 is the rational sum/3, see attribute_avg_eq_div below): the
sum is an integer, so sum/3 is either an integer (exactly representable as
a double) or at distance at least 1/3 from every integer bound, far beyond
any double rounding error, hence the float comparison of line 166 and the
exact rational comparison agree on all reachable inputs. -/
def attribute_avg (trio : List Microbe) (a : String) : ℚ :=
  mkRat ((trio.map fun m => m.attr a).sum) 3

/-- attribute_avg is exactly the rational division sum / 3. -/
theorem attribute_avg_eq_div (trio : List Microbe) (a : String) :
    attribute_avg trio a = (((trio.map fun m => m.attr a).sum : ℤ) : ℚ) / 3 := by
  rw [attribute_avg, Rat.mkRat_eq_divInt, Rat.divInt_eq_div]
  norm_num

/-- Lines 162-171: one iteration of the attribute loop; returns the detail
line and the penalty contribution (numeric display formatting of the
average and the range is elided from the line text). -/
def attr_detail (site : Site) (trio : List Microbe) (a : String) : String × ℕ :=
  if ((site.range_of a).1 : ℚ) ≤ attribute_avg trio a ∧
      attribute_avg trio a ≤ ((site.range_of a).2 : ℚ) then
    ("✅ " ++ a ++ ": avg in range", 0)
  else
    ("❌ " ++ a ++ ": avg OUT OF RANGE", 1)

/-- Lines 173-179: detail line and penalty for the desired-trait condition. -/
def desired_detail (site : Site) (trio : List Microbe) : String × ℕ :=
  if ∃ m ∈ trio, site.desired_trait ∈ m.traits then
    ("✅ Desired trait: PRESENT", 0)
  else
    ("❌ Desired trait: MISSING — penalty!", 1)

/-- Lines 181-188: detail line and penalty for the undesired-trait
condition; a single any(...) check, so at most one penalty unit no matter
how many members carry the trait (culprit names elided from the text). -/
def undesired_detail (site : Site) (trio : List Microbe) : String × ℕ :=
  if ∃ m ∈ trio, site.undesired_trait ∈ m.traits then
    ("❌ Undesired trait: PRESENT — penalty!", 1)
  else
    ("✅ Undesired trait: ABSENT (good!)", 0)

/-- The total penalty count accumulated by lines 159-188. -/
def total_penalties (site : Site) (trio : List Microbe) : ℕ :=
  ((site.attribute_names.map (attr_detail site trio)).map Prod.snd).sum
    + (desired_detail site trio).2 + (undesired_detail site trio).2

/-- Lines 153-191: calculate_site_score. Returns (score, details). -/
def calculate_site_score (site : Site) (selected_microbes : List Microbe) :
    ℤ × List String :=
  if selected_microbes.length ≠ 3 then
    (0, ["❌ You must select exactly 3 microbes"])
  else
    let attr_pairs := site.attribute_names.map (attr_detail site selected_microbes)
    let dp := desired_detail site selected_microbes
    let up := undesired_detail site selected_microbes
    let penalties : ℕ := (attr_pairs.map Prod.snd).sum + dp.2 + up.2
    let score : ℤ := max 0 (100 - (penalties : ℤ) * PENALTY_PER_MISS)
    (score, attr_pairs.map Prod.fst ++ [dp.1, up.1])

-- ── GENERATION (lines 61-149) ────────────────────────────────────────────────

/-- Lines 63: the two-token name built from one pair of random.choice draws
(p, s) are the chosen indices into the two vocabularies. -/
def two_token_name (d : ℕ × ℕ) : String :=
  (MICROBE_PREFIXES.getD d.1 "") ++ " " ++ (MICROBE_SUFFIXES.getD d.2 "")

/-- Lines 62-67: the retry loop of generate_microbe_name. draws gives the
random.choice index pair of each attempt (attempt counter i), fb the
random.randint(1000,9999) fallback draw, fuel the remaining attempts (100
at the top-level call). Returns the name together with the updated
used_names set (modelled as a list). -/
def generate_microbe_name_aux (draws : ℕ → ℕ × ℕ) (fb : ℕ) (used : List String) :
    ℕ → ℕ → String × List String
  | _, 0 => ("Microbe-" ++ toString fb, used)
  | i, fuel + 1 =>
    let name := two_token_name (draws i)
    if name ∈ used then generate_microbe_name_aux draws fb used (i + 1) fuel
    else (name, name :: used)

/-- Lines 61-67: generate_microbe_name with its 100-attempt bound. -/
def generate_microbe_name (used : List String) (draws : ℕ → ℕ × ℕ) (fb : ℕ) :
    String × List String :=
  generate_microbe_name_aux draws fb used 0 100

/-- Lines 80-86: range generation for one attribute of a site. ld models
the draw random.randint(1, 7) and hd the draw random.randint(1, 3). -/
def generate_range (ld hd : ℤ) : ℤ × ℤ :=
  let low := ld
  let high := low + hd
  let high := min high 10
  let low2 := if high - low < 1 then max 1 (high - 2) else low
  (low2, high)

/-- Lines 119-131: trait assignment for one microbe in generate_site.
r1, r2, r3 are the three random.random() draws in [0,1) (as rationals) and
otherIdx the random.choice index into other_traits. -/
def generate_microbe_traits (desired undesired : String) (r1 r2 r3 : ℚ)
    (otherIdx : ℕ) : List String :=
  let other_traits := TRAIT_NAMES.filter fun t => t ≠ desired && t ≠ undesired
  (if r1 < mkRat 40 100 then [desired] else []) ++
  (if r2 < mkRat 20 100 then [undesired] else []) ++
  (if r3 < mkRat 30 100 then [other_traits.getD otherIdx ""] else [])

/-- Lines 98-105 and 132: the name-producing part of generate_site — a
fresh, empty used_names set, then MICROBES_PER_SITE sequential calls of
generate_microbe_name threading that set. draws i is the attempt stream of
microbe i, fbs i its fallback draw. Returns (names in order, final
used_names). -/
def site_name_step (draws : ℕ → ℕ → ℕ × ℕ) (fbs : ℕ → ℕ)
    (acc : List String × List String) (i : ℕ) : List String × List String :=
  let r := generate_microbe_name acc.2 (draws i) (fbs i)
  (acc.1 ++ [r.1], r.2)

def generate_site_names_full (draws : ℕ → ℕ → ℕ × ℕ) (fbs : ℕ → ℕ) :
    List String × List String :=
  (List.range MICROBES_PER_SITE).foldl (site_name_step draws fbs) ([], [])

/-- The ten candidate names of one generated site. -/
def generate_site_names (draws : ℕ → ℕ → ℕ × ℕ) (fbs : ℕ → ℕ) : List String :=
  (generate_site_names_full draws fbs).1

/-- Lines 143-149 restricted to names: generate_game builds NUM_SITES sites
in sequence, each site calling generate_site which starts from its own
empty used_names set (line 99); the sessions candidate names are the
concatenation. draws s i is the attempt stream of microbe i at site s. -/
def generate_game_names (draws : ℕ → ℕ → ℕ → ℕ × ℕ) (fbs : ℕ → ℕ → ℕ) :
    List String :=
  ((List.range NUM_SITES).map fun s => generate_site_names (draws s) (fbs s)).flatten

-- ── SESSION STATE AND TIMER EXPIRY (lines 349-366 and 419-438) ───────────────

/-- The st.session_state fields the playing screen reads and writes
(lines 349-366). Python dicts keyed by site index become functions from ℕ;
the Python sets of indices become Finsets. -/
structure GameState where
  game_state : String
  sites : List Site
  current_site : ℕ
  selections : ℕ → Finset ℕ
  site_scores : ℕ → Option ℤ
  site_details : ℕ → Option (List String)
  time_up : Bool
  submitted_sites : Finset ℕ

/-- Line 430: selected = [sites[i].microbe_pool[j] for j in sel_indices].
Python iterates the set in an unspecified order; the indices are listed in
increasing order here (scores are order-independent), by filtering the
index range of the pool — every selected index is a valid pool index in
every reachable state, since the checkboxes enumerate the pool. -/
def selected_trio (st : GameState) (i : ℕ) : List Microbe :=
  (((List.range (st.sites.getD i default).microbe_pool.length)).filter
      (fun j => j ∈ st.selections i)).map fun j =>
    (st.sites.getD i default).microbe_pool.getD j default

/-- Lines 427-436: the body of the auto-score loop for one site i — skip it
if already submitted, otherwise score it normally when exactly 3 indices
are selected, else assign 0 with the incomplete marker (the apostrophe of
the original message text is elided), and mark it submitted. -/
def force_submit_site (st : GameState) (i : ℕ) : GameState :=
  if i ∈ st.submitted_sites then st
  else
    let sd : ℤ × List String :=
      if (st.selections i).card = 3 then
        calculate_site_score (st.sites.getD i default) (selected_trio st i)
      else
        (0, ["⏰ Time is up — incomplete selection"])
    { st with
      site_scores := fun k => if k = i then some sd.1 else st.site_scores k,
      site_details := fun k => if k = i then some sd.2 else st.site_details k,
      submitted_sites := insert i st.submitted_sites }

/-- Lines 423-438: the expiry check at the top of the playing screen. When
remaining has reached 0 and the time_up flag is not yet set, the flag is
set, every site is run through the auto-score loop, and the session state
becomes "results"; otherwise nothing happens. -/
def check_time_up (remaining : ℤ) (s : GameState) : GameState :=
  if remaining ≤ 0 ∧ s.time_up = false then
    let s2 := (List.range NUM_SITES).foldl force_submit_site { s with time_up := true }
    { s2 with game_state := "results" }
  else s

-- ── CONCRETE FIXTURES ────────────────────────────────────────────────────────

/-- A microbe whose three attribute values sit at 5 and whose single trait
is the desired one of ex_site. -/
def ex_good : Microbe :=
  ⟨"Cyro Virus", "🦠", [("Energy", 5), ("Size", 5), ("Speed", 5)], ["Aerobic"]⟩

/-- Mid-range values, desired trait and the undesired trait. -/
def ex_mixed : Microbe :=
  ⟨"Ops Amoeba", "🧫", [("Energy", 5), ("Size", 5), ("Speed", 5)], ["Aerobic", "Cryogenic"]⟩

/-- Mid-range values, only the undesired trait. -/
def ex_undes : Microbe :=
  ⟨"Neo Spore", "🔬", [("Energy", 5), ("Size", 5), ("Speed", 5)], ["Cryogenic"]⟩

/-- A microbe with no traits and low attribute values. -/
def ex_plain : Microbe :=
  ⟨"Flux Phage", "💊", [("Energy", 1), ("Size", 2), ("Speed", 3)], []⟩

/-- Energy 6, other values mid-range, no traits. -/
def ex_six : Microbe :=
  ⟨"Zeta Cell", "🧬", [("Energy", 6), ("Size", 5), ("Speed", 5)], []⟩

/-- Energy 2, no traits. -/
def ex_two : Microbe :=
  ⟨"Axo Coccus", "⚗️", [("Energy", 2), ("Size", 5), ("Speed", 5)], []⟩

/-- Energy 3, no traits. -/
def ex_three : Microbe :=
  ⟨"Viro Organism", "🫧", [("Energy", 3), ("Size", 5), ("Speed", 5)], []⟩

/-- A site with three attributes all ranged [4,6], desired trait Aerobic,
undesired trait Cryogenic. -/
def ex_site : Site :=
  ⟨1, ["Energy", "Size", "Speed"],
   [("Energy", (4, 6)), ("Size", (4, 6)), ("Speed", (4, 6))],
   "Aerobic", "Cryogenic",
   [ex_good, ex_mixed, ex_undes, ex_plain]⟩

-- ── SCORING ENGINE THEOREMS ──────────────────────────────────────────────────

/-- Shape of the score on a trio of exactly 3 members: the guard of line
155 is not taken and the result is the penalty formula with the detail
lines in their fixed order. -/
theorem calculate_site_score_eq_of_three (site : Site) (trio : List Microbe)
    (h3 : trio.length = 3) :
    calculate_site_score site trio =
      (max 0 (100 - (total_penalties site trio : ℤ) * PENALTY_PER_MISS),
       (site.attribute_names.map (attr_detail site trio)).map Prod.fst ++
         [(desired_detail site trio).1, (undesired_detail site trio).1]) := by
  rw [calculate_site_score, if_neg (fun h => h h3), total_penalties]

/-- All-conditions-met means zero penalties. -/
theorem total_penalties_eq_zero (site : Site) (trio : List Microbe)
    (hattr : ∀ a ∈ site.attribute_names,
      ((site.range_of a).1 : ℚ) ≤ attribute_avg trio a ∧
        attribute_avg trio a ≤ ((site.range_of a).2 : ℚ))
    (hdes : ∃ m ∈ trio, site.desired_trait ∈ m.traits)
    (hund : ∀ m ∈ trio, site.undesired_trait ∉ m.traits) :
    total_penalties site trio = 0 := by
  rw [total_penalties]
  have h1 : ((site.attribute_names.map (attr_detail site trio)).map Prod.snd).sum = 0 := by
    apply List.sum_eq_zero
    intro x hx
    simp only [List.map_map, List.mem_map, Function.comp] at hx
    obtain ⟨a, ha, rfl⟩ := hx
    rw [attr_detail, if_pos (hattr a ha)]
  have h2 : (desired_detail site trio).2 = 0 := by
    rw [desired_detail, if_pos hdes]
  have h3 : (undesired_detail site trio).2 = 0 := by
    rw [undesired_detail, if_neg]
    rintro ⟨m, hm, hmem⟩
    exact hund m hm hmem
  omega

/-- C10: calculate_site_score is total on every site and every candidate
list, its score is one of 0, 20, 40, 60, 80, 100, and the returned
explanation list is never empty. -/
theorem score_total_and_multiple_of_twenty (site : Site) (trio : List Microbe) :
    ((calculate_site_score site trio).1 = 0 ∨ (calculate_site_score site trio).1 = 20 ∨
     (calculate_site_score site trio).1 = 40 ∨ (calculate_site_score site trio).1 = 60 ∨
     (calculate_site_score site trio).1 = 80 ∨ (calculate_site_score site trio).1 = 100) ∧
    (calculate_site_score site trio).2 ≠ [] := by
  by_cases h3 : trio.length = 3
  · rw [calculate_site_score_eq_of_three site trio h3]
    refine ⟨?_, by simp⟩
    simp only [PENALTY_PER_MISS]
    omega
  · rw [calculate_site_score, if_pos h3]
    exact ⟨Or.inl rfl, by simp⟩

/-- C4: on a trio of exactly 3 members the final score is
max(0, 100 − total_penalties × 20), and a trio meeting every
attribute-average condition, containing the desired trait and containing
no undesired-trait member scores exactly 100. -/
theorem score_eq_penalty_formula (site : Site) (trio : List Microbe)
    (h3 : trio.length = 3) :
    (calculate_site_score site trio).1 =
      max 0 (100 - (total_penalties site trio : ℤ) * PENALTY_PER_MISS) ∧
    ((∀ a ∈ site.attribute_names,
        ((site.range_of a).1 : ℚ) ≤ attribute_avg trio a ∧
          attribute_avg trio a ≤ ((site.range_of a).2 : ℚ)) →
      (∃ m ∈ trio, site.desired_trait ∈ m.traits) →
      (∀ m ∈ trio, site.undesired_trait ∉ m.traits) →
      (calculate_site_score site trio).1 = 100) := by
  constructor
  · rw [calculate_site_score_eq_of_three site trio h3]
  · intro hattr hdes hund
    rw [calculate_site_score_eq_of_three site trio h3,
      total_penalties_eq_zero site trio hattr hdes hund]
    rfl

/-- Witness for C4: a trio of three all-5 desired-trait microbes on
ex_site scores 100. -/
theorem score_eq_penalty_formula_witness :
    (calculate_site_score ex_site [ex_good, ex_good, ex_good]).1 = 100 :=
  (score_eq_penalty_formula ex_site [ex_good, ex_good, ex_good] rfl).2
    (by decide) (by decide) (by decide)

/-- C1 counterexample: on ex_site, the trio ex_good, ex_mixed, ex_undes
has exactly 2 members carrying the undesired trait and meets every other
condition (all averages 5 in [4,6], desired trait present), yet it scores
80, not the 60 the claim requires: the any(...) check of line 182 caps the
undesired-trait condition at one penalty unit. -/
theorem two_undesired_score_not_sixty :
    (([ex_good, ex_mixed, ex_undes].filter
        fun m => ex_site.undesired_trait ∈ m.traits).length = 2) ∧
    (∀ a ∈ ex_site.attribute_names,
      ((ex_site.range_of a).1 : ℚ) ≤ attribute_avg [ex_good, ex_mixed, ex_undes] a ∧
        attribute_avg [ex_good, ex_mixed, ex_undes] a ≤ ((ex_site.range_of a).2 : ℚ)) ∧
    (∃ m ∈ [ex_good, ex_mixed, ex_undes], ex_site.desired_trait ∈ m.traits) ∧
    (calculate_site_score ex_site [ex_good, ex_mixed, ex_undes]).1 = 80 ∧
    ¬ (calculate_site_score ex_site [ex_good, ex_mixed, ex_undes]).1 = 60 := by
  decide

/-- Penalties on a trio meeting every condition except the undesired-trait
one amount to exactly 1 unit, however many members carry the trait. -/
theorem total_penalties_eq_one_of_undesired (site : Site) (trio : List Microbe)
    (hattr : ∀ a ∈ site.attribute_names,
      ((site.range_of a).1 : ℚ) ≤ attribute_avg trio a ∧
        attribute_avg trio a ≤ ((site.range_of a).2 : ℚ))
    (hdes : ∃ m ∈ trio, site.desired_trait ∈ m.traits)
    (hund : ∃ m ∈ trio, site.undesired_trait ∈ m.traits) :
    total_penalties site trio = 1 := by
  rw [total_penalties]
  have h1 : ((site.attribute_names.map (attr_detail site trio)).map Prod.snd).sum = 0 := by
    apply List.sum_eq_zero
    intro x hx
    simp only [List.map_map, List.mem_map, Function.comp] at hx
    obtain ⟨a, ha, rfl⟩ := hx
    rw [attr_detail, if_pos (hattr a ha)]
  have h2 : (desired_detail site trio).2 = 0 := by
    rw [desired_detail, if_pos hdes]
  have h3 : (undesired_detail site trio).2 = 1 := by
    rw [undesired_detail, if_pos hund]
  omega

/-- C1 (amended): the undesired-trait condition contributes at most one
penalty unit regardless of how many trio members carry the undesired
trait; a 3-member trio with at least one undesired-trait member (in
particular with 2 of them) and all other conditions met scores exactly
80 = max(0, 100 - 20), not 60. -/
theorem undesired_condition_capped (site : Site) (trio : List Microbe)
    (h3 : trio.length = 3)
    (hattr : ∀ a ∈ site.attribute_names,
      ((site.range_of a).1 : ℚ) ≤ attribute_avg trio a ∧
        attribute_avg trio a ≤ ((site.range_of a).2 : ℚ))
    (hdes : ∃ m ∈ trio, site.desired_trait ∈ m.traits)
    (hund : ∃ m ∈ trio, site.undesired_trait ∈ m.traits) :
    (calculate_site_score site trio).1 = 80 := by
  rw [calculate_site_score_eq_of_three site trio h3,
    total_penalties_eq_one_of_undesired site trio hattr hdes hund]
  rfl

/-- Witness for C1 (amended): the 2-undesired-member trio scores 80. -/
theorem undesired_condition_capped_witness :
    (calculate_site_score ex_site [ex_good, ex_mixed, ex_undes]).1 = 80 :=
  undesired_condition_capped ex_site [ex_good, ex_mixed, ex_undes] rfl
    (by decide) (by decide) (by decide)

/-- C5 counterexample: a submitted list of length 3 whose members are not
3 distinct microbes (the same microbe three times) is not refused: it
receives an ordinary computed numeric score (here 100) and the ordinary
explanation lines, not the structural error message — the guard of line
155 checks only the length. -/
theorem duplicate_trio_scored_numerically :
    ¬ ([ex_good, ex_good, ex_good] : List Microbe).Nodup ∧
    (calculate_site_score ex_site [ex_good, ex_good, ex_good]).1 = 100 ∧
    (calculate_site_score ex_site [ex_good, ex_good, ex_good]).2 ≠
      ["❌ You must select exactly 3 microbes"] := by
  decide

/-- C5 (amended): whenever the submitted list does not contain exactly 3
members (counting multiplicity), scoring refuses with score 0 and the
structural error line instead of a computed score; distinctness itself is
not re-checked by the scoring function (its callers pass lists built from
sets of distinct pool indices). -/
theorem wrong_length_trio_refused (site : Site) (trio : List Microbe)
    (h : trio.length ≠ 3) :
    calculate_site_score site trio = (0, ["❌ You must select exactly 3 microbes"]) := by
  rw [calculate_site_score, if_pos h]

/-- Witness for C5 (amended): a 2-element submission is refused. -/
theorem wrong_length_trio_refused_witness :
    calculate_site_score ex_site [ex_good, ex_plain] =
      (0, ["❌ You must select exactly 3 microbes"]) :=
  wrong_length_trio_refused ex_site [ex_good, ex_plain] (by decide)

/-- C7: for a trio of 3 members, the penalty contribution of an attribute
is 0 when the arithmetic mean of its three values lies between low and
high inclusively — with the mean compared as an exact rational, no epsilon
— and exactly 1 otherwise. -/
theorem attribute_condition_exact_mean (site : Site) (m1 m2 m3 : Microbe)
    (a : String) (trio : List Microbe) (htrio : trio = [m1, m2, m3]) :
    (attr_detail site trio a).2 =
      if ((site.range_of a).1 : ℚ) ≤ ((m1.attr a + m2.attr a + m3.attr a : ℤ) : ℚ) / 3 ∧
          ((m1.attr a + m2.attr a + m3.attr a : ℤ) : ℚ) / 3 ≤ ((site.range_of a).2 : ℚ)
        then 0 else 1 := by
  subst htrio
  have h : attribute_avg [m1, m2, m3] a =
      ((m1.attr a + m2.attr a + m3.attr a : ℤ) : ℚ) / 3 := by
    rw [attribute_avg_eq_div]
    simp only [List.map_cons, List.map_nil, List.sum_cons, List.sum_nil, add_zero]
    push_cast
    ring
  simp only [attr_detail, h]
  split <;> rfl

/-- Witness for C7: on an attribute ranged [4,6], the value triple
(5, 5, 6) has mean 16/3 and meets the condition, while (1, 2, 3) has mean
2 and contributes exactly 1 penalty unit. -/
theorem attribute_condition_exact_mean_witness :
    (attr_detail ex_site [ex_good, ex_mixed, ex_six] "Energy").2 = 0 ∧
    (attr_detail ex_site [ex_plain, ex_two, ex_three] "Energy").2 = 1 := by
  constructor
  · rw [attribute_condition_exact_mean ex_site ex_good ex_mixed ex_six "Energy" _ rfl]
    norm_num [Microbe.attr, ex_good, ex_mixed, ex_six, Site.range_of, ex_site]
  · rw [attribute_condition_exact_mean ex_site ex_plain ex_two ex_three "Energy" _ rfl]
    norm_num [Microbe.attr, ex_plain, ex_two, ex_three, Site.range_of, ex_site]

-- ── GENERATION THEOREMS ──────────────────────────────────────────────────────

/-- C2 counterexample: the draw triple (1/2, 1/2, 1/2) — three valid
random.random() outcomes in [0,1) — misses all three probability bands of
lines 121-130, so the generated microbe has an empty trait list, refuting
"exactly one trait, never zero". -/
theorem generated_traits_can_be_empty :
    (0 ≤ mkRat 1 2 ∧ mkRat 1 2 < 1) ∧
    (generate_microbe_traits "Aerobic" "Cryogenic"
        (mkRat 1 2) (mkRat 1 2) (mkRat 1 2) 0).length = 0 ∧
    ¬ (generate_microbe_traits "Aerobic" "Cryogenic"
        (mkRat 1 2) (mkRat 1 2) (mkRat 1 2) 0).length = 1 := by
  decide

/-- C2 (amended): a generated candidate carries between zero and three
traits — the desired trait with probability band 0.40, independently the
undesired trait with band 0.20, independently one other trait with band
0.30 — and the trait list can be empty. -/
theorem generated_traits_at_most_three (desired undesired : String)
    (r1 r2 r3 : ℚ) (otherIdx : ℕ) :
    (generate_microbe_traits desired undesired r1 r2 r3 otherIdx).length ≤ 3 := by
  rw [generate_microbe_traits]
  split_ifs <;> simp

/-- C8: every generated attribute range has 1 ≤ low ≤ high ≤ 10, for all
possible outcomes of the two random draws of lines 81-82 (randint(1,7)
and randint(1,3)). -/
theorem generate_range_bounds (ld hd : ℤ)
    (h1 : 1 ≤ ld) (h2 : ld ≤ 7) (h3 : 1 ≤ hd) (h4 : hd ≤ 3) :
    1 ≤ (generate_range ld hd).1 ∧
      (generate_range ld hd).1 ≤ (generate_range ld hd).2 ∧
      (generate_range ld hd).2 ≤ 10 := by
  simp only [generate_range]
  split_ifs <;> simp <;> omega

/-- Witness for C8: the draws low = 3, offset = 2 give the range (3, 5). -/
theorem generate_range_bounds_witness :
    1 ≤ (generate_range 3 2).1 ∧
      (generate_range 3 2).1 ≤ (generate_range 3 2).2 ∧
      (generate_range 3 2).2 ≤ 10 :=
  generate_range_bounds 3 2 (by decide) (by decide) (by decide) (by decide)

-- ── NAME GENERATOR THEOREMS ──────────────────────────────────────────────────

/-- Case analysis of the retry loop: every call either succeeds with a
fresh name that is recorded in used_names, or exhausts its attempts and
returns the numeric fallback name with used_names untouched. -/
theorem gen_name_aux_cases (draws : ℕ → ℕ × ℕ) (fb : ℕ) (fuel : ℕ) :
    ∀ (i : ℕ) (used : List String),
      ((generate_microbe_name_aux draws fb used i fuel).1 ∉ used ∧
        (generate_microbe_name_aux draws fb used i fuel).2 =
          (generate_microbe_name_aux draws fb used i fuel).1 :: used) ∨
      ((generate_microbe_name_aux draws fb used i fuel).1 = "Microbe-" ++ toString fb ∧
        (generate_microbe_name_aux draws fb used i fuel).2 = used) := by
  induction fuel with
  | zero => exact fun i used => Or.inr ⟨rfl, rfl⟩
  | succ fuel ih =>
    intro i used
    rw [generate_microbe_name_aux]
    split
    · exact ih (i + 1) used
    · rename_i hmem
      exact Or.inl ⟨hmem, rfl⟩

/-- C9 (amended): generate_microbe_name returns either a name not already
in used, which it inserts into the used set, or — on exhaustion of its
100 bounded attempts — the numeric-suffixed fallback name, which it does
NOT insert into the used set. -/
theorem generate_microbe_name_cases (used : List String) (draws : ℕ → ℕ × ℕ)
    (fb : ℕ) :
    ((generate_microbe_name used draws fb).1 ∉ used ∧
      (generate_microbe_name used draws fb).2 =
        (generate_microbe_name used draws fb).1 :: used) ∨
    ((generate_microbe_name used draws fb).1 = "Microbe-" ++ toString fb ∧
      (generate_microbe_name used draws fb).2 = used) :=
  gen_name_aux_cases draws fb 100 0 used

/-- C9 counterexample: with "Cyro Virus" already used and a draw stream
that proposes "Cyro Virus" on all 100 attempts, the call returns the
fallback name Microbe-1234 but leaves the used set unchanged — the
returned name is not inserted, refuting "in every case inserts the
returned name into the used set". -/
theorem fallback_name_not_inserted :
    generate_microbe_name ["Cyro Virus"] (fun _ => (0, 0)) 1234 =
      ("Microbe-1234", ["Cyro Virus"]) ∧
    "Microbe-1234" ∉ ["Cyro Virus"] := by
  decide

/-- The used_names set grows by at most one entry per generated microbe. -/
theorem site_fold_used_length_le (draws : ℕ → ℕ → ℕ × ℕ) (fbs : ℕ → ℕ)
    (l : List ℕ) :
    ∀ acc : List String × List String,
      ((l.foldl (site_name_step draws fbs) acc).2).length ≤ acc.2.length + l.length := by
  induction l with
  | nil => intro acc; simp
  | cons i t ih =>
    intro acc
    rw [List.foldl_cons]
    have h := ih (site_name_step draws fbs acc i)
    have hstep : (site_name_step draws fbs acc i).2.length ≤ acc.2.length + 1 := by
      rcases gen_name_aux_cases (draws i) (fbs i) 100 0 acc.2 with ⟨_, h2⟩ | ⟨_, h2⟩ <;>
        · simp only [site_name_step, generate_microbe_name]
          rw [h2]
          simp
    simp only [List.length_cons] at *
    omega

/-- If every one of the calls inserted its name (the used set ends with
one entry per microbe), the produced names are pairwise distinct. -/
theorem site_fold_nodup (draws : ℕ → ℕ → ℕ × ℕ) (fbs : ℕ → ℕ) (l : List ℕ) :
    ∀ acc : List String × List String,
      acc.1.Nodup → (∀ n ∈ acc.1, n ∈ acc.2) →
      ((l.foldl (site_name_step draws fbs) acc).2).length = acc.2.length + l.length →
      ((l.foldl (site_name_step draws fbs) acc).1).Nodup := by
  induction l with
  | nil => intro acc h1 _ _; simpa using h1
  | cons i t ih =>
    intro acc h1 h2 hlen
    rw [List.foldl_cons] at hlen ⊢
    rcases gen_name_aux_cases (draws i) (fbs i) 100 0 acc.2 with ⟨hnotin, heq⟩ | ⟨_, heq⟩
    · have hstep1 : (site_name_step draws fbs acc i).1 =
          acc.1 ++ [(generate_microbe_name acc.2 (draws i) (fbs i)).1] := rfl
      have hstep2 : (site_name_step draws fbs acc i).2 =
          (generate_microbe_name acc.2 (draws i) (fbs i)).1 :: acc.2 := heq
      apply ih (site_name_step draws fbs acc i)
      · rw [hstep1]
        simp only [List.nodup_append, List.nodup_cons, List.nodup_nil, List.disjoint_singleton]
        exact ⟨h1, by simp, fun hmem => hnotin (h2 _ hmem)⟩
      · intro n hn
        rw [hstep1] at hn
        rw [hstep2]
        rcases List.mem_append.mp hn with hl | hr
        · exact List.mem_cons_of_mem _ (h2 n hl)
        · simp only [List.mem_singleton] at hr
          exact hr ▸ List.mem_cons_self _ _
      · rw [hstep2]
        simp only [List.length_cons] at hlen ⊢
        omega
    · exfalso
      have hbound := site_fold_used_length_le draws fbs t (site_name_step draws fbs acc i)
      have hstep2 : (site_name_step draws fbs acc i).2 = acc.2 := heq
      rw [hstep2] at hbound
      simp only [List.length_cons] at hlen
      omega

/-- C3 (amended): name uniqueness is enforced per site, not session-wide:
whenever every one of the MICROBES_PER_SITE name-generator calls of a
site succeeds within its retry bound (equivalently, the fresh used-name
set of the site ends with one entry per microbe), the candidate names of
that site are
pairwise distinct; candidates of different sites may share a name because
line 99 resets the used-name set for every site. -/
theorem site_names_nodup_of_all_inserted (draws : ℕ → ℕ → ℕ × ℕ) (fbs : ℕ → ℕ)
    (h : (generate_site_names_full draws fbs).2.length = MICROBES_PER_SITE) :
    (generate_site_names draws fbs).Nodup := by
  rw [generate_site_names, generate_site_names_full]
  apply site_fold_nodup draws fbs (List.range MICROBES_PER_SITE) ([], [])
    (by simp) (by simp)
  rw [generate_site_names_full] at h
  simpa using h

/-- Witness for C3 (amended): a draw stream whose microbe i proposes
prefix i with suffix 0 first — all ten calls succeed and the ten names of
the site are distinct. -/
theorem site_names_nodup_of_all_inserted_witness :
    (generate_site_names_full (fun i _ => (i, 0)) (fun _ => 0)).2.length =
      MICROBES_PER_SITE ∧
    (generate_site_names (fun i _ => (i, 0)) (fun _ => 0)).Nodup :=
  ⟨by decide, site_names_nodup_of_all_inserted _ _ (by decide)⟩

/-- C3 counterexample: running generate_game with the same per-site draw
stream at each of the 3 sites (microbe i proposing prefix i, suffix 0)
produces 30 candidates in which names repeat across sites — candidate 0
of site 1 and candidate 0 of site 2 are both "Cyro Virus" — refuting
session-wide uniqueness. -/
theorem session_names_can_collide :
    (generate_game_names (fun _ i _ => (i, 0)) (fun _ _ => 0)).length = 30 ∧
    (generate_game_names (fun _ i _ => (i, 0)) (fun _ _ => 0)).getD 0 "" = "Cyro Virus" ∧
    (generate_game_names (fun _ i _ => (i, 0)) (fun _ _ => 0)).getD 10 "" = "Cyro Virus" ∧
    ¬ (generate_game_names (fun _ i _ => (i, 0)) (fun _ _ => 0)).Nodup := by
  decide

-- ── TIMER EXPIRY THEOREMS ────────────────────────────────────────────────────

/-- One auto-score step touches neither the flag, the phase, the
selections nor the sites. -/
theorem fss_core (st : GameState) (i : ℕ) :
    (force_submit_site st i).time_up = st.time_up ∧
    (force_submit_site st i).game_state = st.game_state ∧
    (force_submit_site st i).selections = st.selections ∧
    (force_submit_site st i).sites = st.sites := by
  simp only [force_submit_site]
  split <;> exact ⟨rfl, rfl, rfl, rfl⟩

/-- Scores of other sites are untouched by one auto-score step. -/
theorem fss_scores_of_ne (st : GameState) {i j : ℕ} (h : j ≠ i) :
    (force_submit_site st i).site_scores j = st.site_scores j := by
  simp only [force_submit_site]
  split
  · rfl
  · simp [h]

/-- Details of other sites are untouched by one auto-score step. -/
theorem fss_details_of_ne (st : GameState) {i j : ℕ} (h : j ≠ i) :
    (force_submit_site st i).site_details j = st.site_details j := by
  simp only [force_submit_site]
  split
  · rfl
  · simp [h]

/-- An already-submitted site is skipped entirely. -/
theorem fss_of_mem (st : GameState) (i : ℕ) (h : i ∈ st.submitted_sites) :
    force_submit_site st i = st := by
  simp [force_submit_site, h]

/-- Submitted sites stay submitted across an auto-score step. -/
theorem fss_submitted_mono (st : GameState) (k i : ℕ)
    (h : i ∈ st.submitted_sites) : i ∈ (force_submit_site st k).submitted_sites := by
  simp only [force_submit_site]
  split
  · exact h
  · exact Finset.mem_insert_of_mem h

/-- The processed site is submitted after its auto-score step. -/
theorem fss_self_submitted (st : GameState) (i : ℕ) :
    i ∈ (force_submit_site st i).submitted_sites := by
  simp only [force_submit_site]
  split
  · assumption
  · exact Finset.mem_insert_self _ _

/-- An unsubmitted site with exactly 3 selected indices is scored
normally by its auto-score step. -/
theorem fss_self_card3 (st : GameState) (i : ℕ) (hns : i ∉ st.submitted_sites)
    (hc : (st.selections i).card = 3) :
    (force_submit_site st i).site_scores i =
      some (calculate_site_score (st.sites.getD i default) (selected_trio st i)).1 ∧
    (force_submit_site st i).site_details i =
      some (calculate_site_score (st.sites.getD i default) (selected_trio st i)).2 := by
  simp [force_submit_site, hns, hc]

/-- An unsubmitted site without exactly 3 selected indices is assigned
score 0 and the incomplete marker by its auto-score step. -/
theorem fss_self_not3 (st : GameState) (i : ℕ) (hns : i ∉ st.submitted_sites)
    (hc : (st.selections i).card ≠ 3) :
    (force_submit_site st i).site_scores i = some 0 ∧
    (force_submit_site st i).site_details i =
      some ["⏰ Time is up — incomplete selection"] := by
  simp [force_submit_site, hns, hc]

/-- A submitted site keeps its score, its details and its submitted
status across any auto-score step. -/
theorem fss_keep_submitted (st : GameState) (k i : ℕ)
    (h : i ∈ st.submitted_sites) :
    (force_submit_site st k).site_scores i = st.site_scores i ∧
    (force_submit_site st k).site_details i = st.site_details i ∧
    i ∈ (force_submit_site st k).submitted_sites := by
  by_cases hik : i = k
  · subst hik
    rw [fss_of_mem st i h]
    exact ⟨rfl, rfl, h⟩
  · exact ⟨fss_scores_of_ne st hik, fss_details_of_ne st hik,
      fss_submitted_mono st k i h⟩

/-- The forced trio only depends on the selections and the sites. -/
theorem selected_trio_congr {st st' : GameState}
    (h1 : st'.selections = st.selections) (h2 : st'.sites = st.sites) (i : ℕ) :
    selected_trio st' i = selected_trio st i := by
  simp [selected_trio, h1, h2]

/-- Other sites keep their submitted status across an auto-score step. -/
theorem fss_submitted_iff_of_ne (st : GameState) {k i : ℕ} (h : i ≠ k) :
    i ∈ (force_submit_site st k).submitted_sites ↔ i ∈ st.submitted_sites := by
  simp only [force_submit_site]
  split
  · exact Iff.rfl
  · simp [Finset.mem_insert, h]

/-- Under an expired timer with the flag still clear, check_time_up is
the auto-score loop over all sites followed by the transition to
results. -/
theorem check_time_up_eval (r : ℤ) (s : GameState) (hr : r ≤ 0)
    (ht : s.time_up = false) :
    check_time_up r s =
      { (List.range NUM_SITES).foldl force_submit_site { s with time_up := true }
        with game_state := "results" } := by
  rw [check_time_up, if_pos (⟨hr, ht⟩ : r ≤ 0 ∧ s.time_up = false)]

/-- Sites outside the processed list keep their score and details. -/
theorem fold_scores_of_not_mem (l : List ℕ) :
    ∀ (st : GameState) (i : ℕ), i ∉ l →
      (l.foldl force_submit_site st).site_scores i = st.site_scores i ∧
      (l.foldl force_submit_site st).site_details i = st.site_details i := by
  induction l with
  | nil => intro st i _; exact ⟨rfl, rfl⟩
  | cons j t ih =>
    intro st i h
    rw [List.foldl_cons]
    have hij : i ≠ j := fun e => h (e ▸ List.mem_cons_self j t)
    have ht' : i ∉ t := fun m => h (List.mem_cons_of_mem j m)
    have hrest := ih (force_submit_site st j) i ht'
    exact ⟨hrest.1.trans (fss_scores_of_ne st hij),
      hrest.2.trans (fss_details_of_ne st hij)⟩

/-- The auto-score loop touches neither the flag, the selections nor the
sites. -/
theorem fold_core (l : List ℕ) :
    ∀ st : GameState,
      (l.foldl force_submit_site st).time_up = st.time_up ∧
      (l.foldl force_submit_site st).selections = st.selections ∧
      (l.foldl force_submit_site st).sites = st.sites := by
  induction l with
  | nil => intro st; exact ⟨rfl, rfl, rfl⟩
  | cons j t ih =>
    intro st
    rw [List.foldl_cons]
    have h1 := ih (force_submit_site st j)
    have h2 := fss_core st j
    exact ⟨h1.1.trans h2.1, h1.2.1.trans h2.2.2.1, h1.2.2.trans h2.2.2.2⟩

/-- A site submitted before the loop keeps its score, details and
submitted status through the whole loop. -/
theorem fold_keep_submitted (l : List ℕ) :
    ∀ (st : GameState) (i : ℕ), i ∈ st.submitted_sites →
      (l.foldl force_submit_site st).site_scores i = st.site_scores i ∧
      (l.foldl force_submit_site st).site_details i = st.site_details i ∧
      i ∈ (l.foldl force_submit_site st).submitted_sites := by
  induction l with
  | nil => intro st i h; exact ⟨rfl, rfl, h⟩
  | cons j t ih =>
    intro st i h
    rw [List.foldl_cons]
    have hk := fss_keep_submitted st j i h
    have hrest := ih (force_submit_site st j) i hk.2.2
    exact ⟨hrest.1.trans hk.1, hrest.2.1.trans hk.2.1, hrest.2.2⟩

/-- Submitted status is monotone through the loop. -/
theorem fold_submitted_mono (l : List ℕ) :
    ∀ (st : GameState) (i : ℕ), i ∈ st.submitted_sites →
      i ∈ (l.foldl force_submit_site st).submitted_sites := by
  induction l with
  | nil => intro _ _ h; exact h
  | cons j t ih =>
    intro st i h
    rw [List.foldl_cons]
    exact ih (force_submit_site st j) i (fss_submitted_mono st j i h)

/-- Every processed site ends the loop submitted. -/
theorem fold_all_submitted (l : List ℕ) :
    ∀ (st : GameState) (i : ℕ), i ∈ l →
      i ∈ (l.foldl force_submit_site st).submitted_sites := by
  induction l with
  | nil => intro st i h; exact absurd h (List.not_mem_nil i)
  | cons j t ih =>
    intro st i h
    rw [List.foldl_cons]
    rcases List.mem_cons.mp h with rfl | hmt
    · exact fold_submitted_mono t _ i (fss_self_submitted st i)
    · exact ih _ i hmt

/-- An unsubmitted processed site with exactly 3 selected indices ends
the loop scored normally by calculate_site_score. -/
theorem fold_unsubmitted_card3 (l : List ℕ) :
    ∀ (st : GameState) (i : ℕ), l.Nodup → i ∈ l → i ∉ st.submitted_sites →
      (st.selections i).card = 3 →
      (l.foldl force_submit_site st).site_scores i =
        some (calculate_site_score (st.sites.getD i default) (selected_trio st i)).1 ∧
      (l.foldl force_submit_site st).site_details i =
        some (calculate_site_score (st.sites.getD i default) (selected_trio st i)).2 := by
  induction l with
  | nil => intro st i _ hmem; exact absurd hmem (List.not_mem_nil i)
  | cons j t ih =>
    intro st i hnd hmem hns hc
    rw [List.foldl_cons]
    rcases List.mem_cons.mp hmem with rfl | hmt
    · have hself := fss_self_card3 st i hns hc
      have hrest := fold_scores_of_not_mem t (force_submit_site st i) i
        (List.nodup_cons.mp hnd).1
      exact ⟨hrest.1.trans hself.1, hrest.2.trans hself.2⟩
    · have hij : i ≠ j := by
        rintro rfl
        exact (List.nodup_cons.mp hnd).1 hmt
      have hcore := fss_core st j
      have hns' : i ∉ (force_submit_site st j).submitted_sites := fun h =>
        hns ((fss_submitted_iff_of_ne st hij).mp h)
      have hc' : ((force_submit_site st j).selections i).card = 3 := by
        rw [hcore.2.2.1]
        exact hc
      have h := ih (force_submit_site st j) i (List.nodup_cons.mp hnd).2 hmt hns' hc'
      rw [selected_trio_congr hcore.2.2.1 hcore.2.2.2 i, hcore.2.2.2] at h
      exact h

/-- An unsubmitted processed site without exactly 3 selected indices ends
the loop with score 0 and the incomplete marker. -/
theorem fold_unsubmitted_not3 (l : List ℕ) :
    ∀ (st : GameState) (i : ℕ), l.Nodup → i ∈ l → i ∉ st.submitted_sites →
      (st.selections i).card ≠ 3 →
      (l.foldl force_submit_site st).site_scores i = some 0 ∧
      (l.foldl force_submit_site st).site_details i =
        some ["⏰ Time is up — incomplete selection"] := by
  induction l with
  | nil => intro st i _ hmem; exact absurd hmem (List.not_mem_nil i)
  | cons j t ih =>
    intro st i hnd hmem hns hc
    rw [List.foldl_cons]
    rcases List.mem_cons.mp hmem with rfl | hmt
    · have hself := fss_self_not3 st i hns hc
      have hrest := fold_scores_of_not_mem t (force_submit_site st i) i
        (List.nodup_cons.mp hnd).1
      exact ⟨hrest.1.trans hself.1, hrest.2.trans hself.2⟩
    · have hij : i ≠ j := by
        rintro rfl
        exact (List.nodup_cons.mp hnd).1 hmt
      have hcore := fss_core st j
      have hns' : i ∉ (force_submit_site st j).submitted_sites := fun h =>
        hns ((fss_submitted_iff_of_ne st hij).mp h)
      have hc' : ((force_submit_site st j).selections i).card ≠ 3 := by
        rw [hcore.2.2.1]
        exact hc
      exact ih (force_submit_site st j) i (List.nodup_cons.mp hnd).2 hmt hns' hc'

/-- C6: the instant the remaining time reaches 0 with the time_up flag
still clear, every site not yet submitted is force-finalized exactly
once — scored by calculate_site_score when its final-selection set has
exactly 3 members, otherwise assigned score 0 with the incomplete
explanation — already-submitted sites keep their score and details
untouched, every site ends submitted, the session transitions
unconditionally to the results state, and the forced finalize never runs
a second time on the resulting state. -/
theorem timer_expiry_finalizes_once (r : ℤ) (s : GameState)
    (hr : r ≤ 0) (ht : s.time_up = false) :
    (check_time_up r s).game_state = "results" ∧
    (check_time_up r s).time_up = true ∧
    (∀ i ∈ s.submitted_sites,
      (check_time_up r s).site_scores i = s.site_scores i ∧
      (check_time_up r s).site_details i = s.site_details i) ∧
    (∀ i, i < NUM_SITES → i ∉ s.submitted_sites → (s.selections i).card = 3 →
      (check_time_up r s).site_scores i =
        some (calculate_site_score (s.sites.getD i default) (selected_trio s i)).1 ∧
      (check_time_up r s).site_details i =
        some (calculate_site_score (s.sites.getD i default) (selected_trio s i)).2) ∧
    (∀ i, i < NUM_SITES → i ∉ s.submitted_sites → (s.selections i).card ≠ 3 →
      (check_time_up r s).site_scores i = some 0 ∧
      (check_time_up r s).site_details i =
        some ["⏰ Time is up — incomplete selection"]) ∧
    (∀ i, i < NUM_SITES → i ∈ (check_time_up r s).submitted_sites) ∧
    (∀ r' : ℤ, check_time_up r' (check_time_up r s) = check_time_up r s) := by
  rw [check_time_up_eval r s hr ht]
  have hnd : (List.range NUM_SITES).Nodup := List.nodup_range NUM_SITES
  refine ⟨rfl, ?_, ?_, ?_, ?_, ?_, ?_⟩
  · exact (fold_core (List.range NUM_SITES) { s with time_up := true }).1
  · intro i hi
    have hk := fold_keep_submitted (List.range NUM_SITES) { s with time_up := true } i hi
    exact ⟨hk.1, hk.2.1⟩
  · intro i hi hns hc
    exact fold_unsubmitted_card3 (List.range NUM_SITES) { s with time_up := true } i
      hnd (List.mem_range.mpr hi) hns hc
  · intro i hi hns hc
    exact fold_unsubmitted_not3 (List.range NUM_SITES) { s with time_up := true } i
      hnd (List.mem_range.mpr hi) hns hc
  · intro i hi
    exact fold_all_submitted (List.range NUM_SITES) { s with time_up := true } i
      (List.mem_range.mpr hi)
  · intro r'
    have h1 : ({ (List.range NUM_SITES).foldl force_submit_site
        { s with time_up := true } with game_state := "results" } : GameState).time_up =
        true :=
      (fold_core (List.range NUM_SITES) { s with time_up := true }).1
    rw [check_time_up, if_neg]
    rintro ⟨_, habs⟩
    exact Bool.noConfusion (h1.symm.trans habs)

/-- A mid-game session: site 0 already submitted with score 100, site 1
unsubmitted with exactly 3 selected indices, site 2 unsubmitted with no
selection yet. -/
def ex_state : GameState :=
  { game_state := "playing"
    sites := [ex_site, ex_site, ex_site]
    current_site := 1
    selections := fun i => if i = 1 then {0, 1, 2} else ∅
    site_scores := fun i => if i = 0 then some 100 else none
    site_details := fun i => if i = 0 then some ["submitted earlier"] else none
    time_up := false
    submitted_sites := {0} }

/-- Witness for C6: expiry on ex_state keeps site 0 at 100, scores site 1
normally (80: two undesired-trait members among indices 0,1,2 of the
pool), forces site 2 to 0 with the incomplete marker, reaches results,
and a second expiry check changes nothing. -/
theorem timer_expiry_finalizes_once_witness :
    ex_state.time_up = false ∧
    (check_time_up 0 ex_state).game_state = "results" ∧
    (check_time_up 0 ex_state).site_scores 0 = some 100 ∧
    (check_time_up 0 ex_state).site_scores 1 = some 80 ∧
    (check_time_up 0 ex_state).site_scores 2 = some 0 ∧
    (check_time_up 0 ex_state).site_details 2 =
      some ["⏰ Time is up — incomplete selection"] ∧
    check_time_up (-5) (check_time_up 0 ex_state) = check_time_up 0 ex_state := by
  have h := timer_expiry_finalizes_once 0 ex_state (by decide) rfl
  refine ⟨rfl, h.1, ?_, ?_, ?_, ?_, h.2.2.2.2.2.2 (-5)⟩
  · exact ((h.2.2.1 0 (by decide)).1).trans rfl
  · exact ((h.2.2.2.1 1 (by decide) (by decide) (by decide)).1).trans (by decide)
  · exact (h.2.2.2.2.1 2 (by decide) (by decide) (by decide)).1
  · exact (h.2.2.2.2.1 2 (by decide) (by decide) (by decide)).2

end SeaWolf
